import Mathlib

/-!
Verification of the process-supervision layer of the TWIST2 operator console
(file gui.py: classes TerminalPanel and TeleopControlCenter).

The supervision layer is embedded shallowly: each Python method becomes a pure
Lean function over an explicit Panel record; interactions with the operating
system (signal delivery, process liveness polling, subprocess spawning, the
cleanup subcommand) are resolved by explicit environment records describing the
outcome the OS produced, and the signals actually delivered are recorded in an
event trace returned alongside the updated Panel.
-/

/-- Embedding of the Python substring test (the expression needle in s),
on the underlying character list: true iff needle occurs contiguously in s. -/
def strContainsAux (needle : List Char) : List Char → Bool
  | [] => needle.isPrefixOf []
  | c :: cs => needle.isPrefixOf (c :: cs) || strContainsAux needle cs

/-- Python substring membership test needle in s. -/
def strContains (needle s : String) : Bool :=
  strContainsAux needle.data s.data

/-- Helper for pySplit: accumulates the current chunk (reversed). -/
def splitWsAux : List Char → List Char → List String
  | [], acc => if acc.isEmpty then [] else [String.mk acc.reverse]
  | c :: cs, acc =>
      if c = ' ' then
        if acc.isEmpty then splitWsAux cs []
        else String.mk acc.reverse :: splitWsAux cs []
      else splitWsAux cs (c :: acc)

/-- Embedding of the Python str.split() call used to turn a display command
into an argument vector: split on blanks, dropping empty chunks. -/
def pySplit (s : String) : List String := splitWsAux s.data []

/-- The status indicator of a TerminalPanel. The source maps the keys
"stopped" / "warning" / "running" / "error" of update-status to the displayed
texts OFFLINE / STARTING / ONLINE / ERROR. -/
inductive Status
  | offline
  | starting
  | online
  | error
deriving DecidableEq, Repr

/-- State of one TerminalPanel: its static configuration (title, command,
is-remote flag, optional cleanup command) and its mutable supervision state
(process handle, output queue, running flag, status indicator). The widget
fields of the source are out of scope; the text queue stands for the output
surface. -/
structure Panel where
  title : String
  command : String
  is_remote : Bool
  custom_kill_cmd : Option String
  process : Option Nat
  output_queue : List String
  is_running : Bool
  status : Status
deriving DecidableEq, Repr

/-- TerminalPanel.log-output: put the text on the output queue. -/
def _log_output (p : Panel) (text : String) : Panel :=
  { p with output_queue := p.output_queue ++ [text] }

/-- TerminalPanel.update-status: set the status indicator. -/
def _update_status (p : Panel) (s : Status) : Panel :=
  { p with status := s }

/-- TerminalPanel build-ssh-command: starts from the list with the single
element ssh, appends -t exactly when the remote command text contains sudo,
then extends with the fixed option list, the host alias g1 and the remote
command itself. -/
def _build_ssh_command (remote_command : String) : List String :=
  let cmd := ["ssh"]
  let cmd := if strContains "sudo" remote_command then cmd ++ ["-t"] else cmd
  cmd ++ ["-o", "StrictHostKeyChecking=no", "-o", "LogLevel=ERROR", "g1",
          remote_command]

/-- Outcome of running the cleanup subcommand: normal exit with code zero,
non-zero exit, or an exception (which includes the bounded-timeout expiry). -/
inductive CleanupResult
  | success
  | nonzeroExit (code : Int)
  | raised (msg : String)
deriving DecidableEq, Repr

/-- TerminalPanel execute-cleanup-command: logs the cleanup command, builds its
argument vector (through build-ssh-command when the panel is remote, through a
plain split otherwise), runs it with a bounded timeout and logs the outcome.
Every failure, the timeout included, is caught inside this method. The built
argument vector is returned as the second component. -/
def _execute_cleanup_command (p : Panel) (ck : String) (res : CleanupResult) :
    Panel × List String :=
  let p := _log_output p ("Cleanup: " ++ ck ++ "\n")
  let cleanup_cmd := if p.is_remote then _build_ssh_command ck else pySplit ck
  let p :=
    match res with
    | CleanupResult.success => _log_output p "Cleanup successful\n"
    | CleanupResult.nonzeroExit code =>
        _log_output p ("Cleanup failed (code: " ++ toString code ++ ")\n")
    | CleanupResult.raised msg =>
        _log_output p ("Cleanup error: " ++ msg ++ "\n")
  (p, cleanup_cmd)

/-- Externally visible actions of the kill path: delivery of the graceful
signal to the process group, the fixed grace-period sleep, delivery of the
forceful signal, and the cleanup invocation with its argument vector. -/
inductive KillEvent
  | sigterm
  | sleep (secs : Nat)
  | sigkill
  | cleanup (argv : List String)
deriving DecidableEq, Repr

/-- Outcomes the operating system produces along one kill call: whether the
graceful delivery raises (for instance the process group is already gone),
whether the process is still alive when polled after the grace period, whether
the forceful delivery raises, and the cleanup outcome. -/
structure KillEnv where
  sigtermRaises : Bool
  sigtermMsg : String
  aliveAfterGrace : Bool
  sigkillRaises : Bool
  sigkillMsg : String
  cleanupResult : CleanupResult
deriving Repr

/-- Tail of TerminalPanel.kill inside the try block, reached only when no
signal delivery raised: run the cleanup command when one is configured, then
set running to false, the status to offline and log the final line. -/
def killFinish (p : Panel) (env : KillEnv) (evs : List KillEvent) :
    Panel × List KillEvent :=
  let (p, evs) :=
    match p.custom_kill_cmd with
    | some ck =>
        let (q, argv) := _execute_cleanup_command p ck env.cleanupResult
        (q, evs ++ [KillEvent.cleanup argv])
    | none => (p, evs)
  let p := _update_status { p with is_running := false } Status.offline
  (_log_output p "Process killed\n", evs)

/-- TerminalPanel.kill. When not running: log and return. Otherwise, inside a
try block: if a process handle exists, deliver the graceful signal to the
process group, sleep one second, and if the process is still alive deliver the
forceful signal; then run the cleanup command if configured and set the state
to not running / offline. An exception from either signal delivery jumps to
the except branch, which only logs the error, leaving running and status as
they were. -/
def kill (p : Panel) (env : KillEnv) : Panel × List KillEvent :=
  if p.is_running = false then
    (_log_output p "No process running!\n", [])
  else
    let p := _log_output p "Killing process...\n"
    match p.process with
    | none => killFinish p env []
    | some _ =>
        if env.sigtermRaises then
          (_log_output p ("Kill error: " ++ env.sigtermMsg ++ "\n"), [])
        else if env.aliveAfterGrace then
          if env.sigkillRaises then
            (_log_output p ("Kill error: " ++ env.sigkillMsg ++ "\n"),
             [KillEvent.sigterm, KillEvent.sleep 1])
          else
            killFinish p env
              [KillEvent.sigterm, KillEvent.sleep 1, KillEvent.sigkill]
        else
          killFinish p env [KillEvent.sigterm, KillEvent.sleep 1]

/-- The cleanup part of the kill trace: one cleanup event carrying the built
argument vector when a cleanup command is configured, nothing otherwise. -/
def cleanup_events (p : Panel) : List KillEvent :=
  match p.custom_kill_cmd with
  | some ck =>
      [KillEvent.cleanup (if p.is_remote then _build_ssh_command ck
                          else pySplit ck)]
  | none => []

/-- Externally visible actions of the start path: the spawn of a subprocess
with its argument vector, and the launch of the monitor thread. -/
inductive StartEvent
  | spawned (argv : List String)
  | readerLaunched
deriving DecidableEq, Repr

/-- Outcome the operating system produces for one spawn attempt. -/
structure StartEnv where
  spawnFails : Bool
  excMsg : String
  newPid : Nat
deriving Repr

/-- TerminalPanel start-local: spawn the split command in a fresh process
group; on success store the handle, set running and the online status, and
launch the monitor thread; on an exception log the error and set the error
status, leaving running false. -/
def _start_local (p : Panel) (env : StartEnv) : Panel × List StartEvent :=
  if env.spawnFails then
    (_update_status (_log_output p ("Error: " ++ env.excMsg ++ "\n"))
      Status.error, [])
  else
    let argv := pySplit p.command
    let p := { p with process := some env.newPid }
    let p := _update_status { p with is_running := true } Status.online
    (p, [StartEvent.spawned argv, StartEvent.readerLaunched])

/-- TerminalPanel start-remote: log the connection attempt, wrap the command
(prefixed by a change to the home directory) through build-ssh-command, spawn
it; on success store the handle, set running and the online status, log the
connection and launch the monitor thread; on an exception log the error and
set the error status. -/
def _start_remote (p : Panel) (env : StartEnv) : Panel × List StartEvent :=
  let p := _log_output p "Connecting to G1...\n"
  let ssh_cmd := _build_ssh_command ("cd ~ && " ++ p.command)
  if env.spawnFails then
    (_update_status (_log_output p ("Connection error: " ++ env.excMsg ++ "\n"))
      Status.error, [])
  else
    let p := { p with process := some env.newPid }
    let p := _update_status { p with is_running := true } Status.online
    let p := _log_output p "Connected to G1\n"
    (p, [StartEvent.spawned ssh_cmd, StartEvent.readerLaunched])

/-- TerminalPanel.start: when already running, log and return without any
spawn; otherwise log the start, set the starting status and dispatch on the
locality flag. -/
def start (p : Panel) (env : StartEnv) : Panel × List StartEvent :=
  if p.is_running then
    (_log_output p "Process already running!\n", [])
  else
    let p := _log_output p ("Starting: " ++ p.command ++ "\n")
    let p := _update_status p Status.starting
    if p.is_remote then _start_remote p env else _start_local p env

/-- Outcome the monitored output stream produces: the lines read before end of
stream, the exit code, and whether the loop raised an exception. -/
structure MonitorEnv where
  readFails : Bool
  failMsg : String
  lines : List String
  exitCode : Int
deriving Repr

/-- TerminalPanel monitor-output (the body of the reader thread): push each
line read from the merged stream, then log the exit summary and set the state
to not running / offline; if the loop raises, the except branch logs the
error and sets the state to not running with the error status instead. -/
def _monitor_output (p : Panel) (env : MonitorEnv) : Panel :=
  if env.readFails then
    let p := _log_output p ("Monitor error: " ++ env.failMsg ++ "\n")
    _update_status { p with is_running := false } Status.error
  else
    let p := env.lines.foldl _log_output p
    let p :=
      match p.process with
      | some _ =>
          _log_output p
            ("\nProcess finished (code: " ++ toString env.exitCode ++ ")\n")
      | none => p
    _update_status { p with is_running := false } Status.offline

/-- FIFO put on the output queue (queue.Queue.put). -/
def queue_put (q : List String) (x : String) : List String := q ++ [x]

/-- One interaction with the output channel: a producer push of one line, or
one consumer drain step taking the oldest line. -/
inductive ChanOp
  | push (line : String)
  | pop
deriving DecidableEq, Repr

/-- The observable state of the output channel: the lines still queued and the
lines already delivered to the consumer, in delivery order. -/
structure ChanState where
  queue : List String
  delivered : List String
deriving DecidableEq, Repr

/-- One step of the output channel: a push appends to the queue; a pop on a
non-empty queue moves the oldest line to the delivered list (queue.Queue get,
as drained by the reader loop), and is a no-op on an empty queue (the Empty
branch of the reader loop). -/
def chanStep (s : ChanState) : ChanOp → ChanState
  | ChanOp.push x => { s with queue := queue_put s.queue x }
  | ChanOp.pop =>
      match s.queue with
      | [] => s
      | x :: rest => { queue := rest, delivered := s.delivered ++ [x] }

/-- Run a sequence of channel interactions. -/
def chanRun (s : ChanState) (ops : List ChanOp) : ChanState :=
  ops.foldl chanStep s

/-- The lines pushed by an interaction sequence, in push order. -/
def pushesOf (ops : List ChanOp) : List String :=
  ops.filterMap fun op =>
    match op with
    | ChanOp.push x => some x
    | ChanOp.pop => none

/-- TeleopControlCenter emergency-stop: iterate over all panels, each paired
with the outcome environment of its own kill path, and call kill on every
panel currently running. -/
def _emergency_stop (panels : List (Panel × KillEnv)) : List Panel :=
  panels.map fun pe => if pe.1.is_running then (kill pe.1 pe.2).1 else pe.1

/-- Group-start events: a start call on a named panel, or the fixed delay
slept between consecutive starts. -/
inductive GEvent
  | startCalled (title : String)
  | slept (secs : Nat)
deriving DecidableEq, Repr

/-- TeleopControlCenter start-g1-servers: start the neck panel when not
running, then sleep one second; then start the zed panel when not running. -/
def _start_g1_servers (neck zed : Panel) (eNeck eZed : StartEnv) :
    (Panel × Panel) × List GEvent :=
  let (neck2, ev1) :=
    if neck.is_running then (neck, [])
    else ((start neck eNeck).1, [GEvent.startCalled neck.title, GEvent.slept 1])
  let (zed2, ev2) :=
    if zed.is_running then (zed, [])
    else ((start zed eZed).1, [GEvent.startCalled zed.title])
  ((neck2, zed2), ev1 ++ ev2)

/-- TeleopControlCenter start-local-servers: start the sim2real panel when not
running, then sleep one second; likewise the teleop panel; then start the
record panel when not running. -/
def _start_local_servers (sim2real teleop record : Panel)
    (e1 e2 e3 : StartEnv) : (Panel × Panel × Panel) × List GEvent :=
  let (sr2, ev1) :=
    if sim2real.is_running then (sim2real, [])
    else ((start sim2real e1).1,
          [GEvent.startCalled sim2real.title, GEvent.slept 1])
  let (tp2, ev2) :=
    if teleop.is_running then (teleop, [])
    else ((start teleop e2).1,
          [GEvent.startCalled teleop.title, GEvent.slept 1])
  let (rc2, ev3) :=
    if record.is_running then (record, [])
    else ((start record e3).1, [GEvent.startCalled record.title])
  ((sr2, tp2, rc2), ev1 ++ ev2 ++ ev3)

/-- A running local panel as configured in the source (Sim2Real Deploy). -/
def pRun : Panel :=
  { title := "Sim2Real Deploy", command := "bash sim2real.sh",
    is_remote := false,
    custom_kill_cmd := some "pkill -f server_low_level_g1_real_future.py",
    process := some 42, output_queue := [], is_running := true,
    status := Status.online }

/-- An idle local panel as configured in the source (Online Teleop). -/
def pIdle : Panel :=
  { title := "Online Teleop", command := "bash teleop.sh", is_remote := false,
    custom_kill_cmd := none, process := none, output_queue := [],
    is_running := false, status := Status.offline }

/-- An idle panel resting in the error status after a failed spawn. -/
def pErrIdle : Panel :=
  { title := "Offline Motion", command := "bash run_motion_server.sh",
    is_remote := false, custom_kill_cmd := none, process := none,
    output_queue := [], is_running := false, status := Status.error }

/-- A running remote panel as configured in the source (G1 Neck Control). -/
def pRemoteRun : Panel :=
  { title := "G1 Neck Control", command := "bash ~/g1-onboard/docker_neck.sh",
    is_remote := true, custom_kill_cmd := some "pkill -f neck_teleop.py",
    process := some 7, output_queue := [], is_running := true,
    status := Status.online }

/-- An idle local panel as configured in the source (Sim2Real Deploy). -/
def pSimIdle : Panel :=
  { title := "Sim2Real Deploy", command := "bash sim2real.sh",
    is_remote := false,
    custom_kill_cmd := some "pkill -f server_low_level_g1_real_future.py",
    process := none, output_queue := [], is_running := false,
    status := Status.offline }

/-- An idle local panel as configured in the source (Data Recording). -/
def pRecIdle : Panel :=
  { title := "Data Recording", command := "bash data_record.sh",
    is_remote := false, custom_kill_cmd := some "pkill -f server_data_record.py",
    process := none, output_queue := [], is_running := false,
    status := Status.offline }

/-- An idle remote panel as configured in the source (G1 Neck Control). -/
def pNeckIdle : Panel :=
  { title := "G1 Neck Control", command := "bash ~/g1-onboard/docker_neck.sh",
    is_remote := true, custom_kill_cmd := some "pkill -f neck_teleop.py",
    process := none, output_queue := [], is_running := false,
    status := Status.offline }

/-- An idle remote panel as configured in the source (G1 ZED Teleop). -/
def pZedIdle : Panel :=
  { title := "G1 ZED Teleop", command := "bash ~/g1-onboard/docker_zed.sh",
    is_remote := true, custom_kill_cmd := some "pkill -9 OrinVideoSender",
    process := none, output_queue := [], is_running := false,
    status := Status.offline }

/-- A kill environment where nothing raises and the process survives the
grace period, so the forced branch fires and cleanup succeeds. -/
def envOk : KillEnv :=
  { sigtermRaises := false, sigtermMsg := "", aliveAfterGrace := true,
    sigkillRaises := false, sigkillMsg := "",
    cleanupResult := CleanupResult.success }

/-- A kill environment where the graceful delivery raises (the process group
is already gone by the time the signal is sent). -/
def envTermRaises : KillEnv :=
  { sigtermRaises := true, sigtermMsg := "No such process",
    aliveAfterGrace := false, sigkillRaises := false, sigkillMsg := "",
    cleanupResult := CleanupResult.success }

/-- A kill environment where the process exits within the grace period. -/
def envExited : KillEnv :=
  { sigtermRaises := false, sigtermMsg := "", aliveAfterGrace := false,
    sigkillRaises := false, sigkillMsg := "",
    cleanupResult := CleanupResult.success }

/-- A spawn environment where the spawn succeeds. -/
def sEnvOk : StartEnv := { spawnFails := false, excMsg := "", newPid := 101 }

/-- A spawn environment where the spawn raises. -/
def sEnvFail : StartEnv :=
  { spawnFails := true, excMsg := "No such file or directory", newPid := 0 }

/-- A monitor environment whose read loop raises. -/
def mEnvFail : MonitorEnv :=
  { readFails := true, failMsg := "I/O operation on closed file",
    lines := [], exitCode := 0 }

/-! ## Helper lemmas about the kill path -/

/-- The output-log step leaves the process handle unchanged. -/
theorem log_output_process (p : Panel) (t : String) :
    (_log_output p t).process = p.process := rfl

/-- The output-log step leaves the cleanup command unchanged. -/
theorem log_output_custom (p : Panel) (t : String) :
    (_log_output p t).custom_kill_cmd = p.custom_kill_cmd := rfl

/-- The output-log step leaves the locality flag unchanged. -/
theorem log_output_is_remote (p : Panel) (t : String) :
    (_log_output p t).is_remote = p.is_remote := rfl

/-- The tail of the kill try block always ends not running and offline,
whatever the cleanup command and its outcome. -/
theorem killFinish_state (p : Panel) (env : KillEnv) (evs : List KillEvent) :
    (killFinish p env evs).1.is_running = false ∧
    (killFinish p env evs).1.status = Status.offline := by
  unfold killFinish _execute_cleanup_command _log_output _update_status
  cases p.custom_kill_cmd <;> cases env.cleanupResult <;> simp

/-- The tail of the kill try block only appends to the output queue. -/
theorem killFinish_mem (p : Panel) (env : KillEnv) (evs : List KillEvent)
    (x : String) (hx : x ∈ p.output_queue) :
    x ∈ (killFinish p env evs).1.output_queue := by
  unfold killFinish _execute_cleanup_command _log_output _update_status
  cases p.custom_kill_cmd <;> cases env.cleanupResult <;> simp [hx]

/-- On a running panel, kill reaches the offline state whenever neither signal
delivery raises, in every escalation branch and for every cleanup outcome. -/
theorem kill_offline_of_no_raise (p : Panel) (env : KillEnv)
    (hrun : p.is_running = true) (hterm : env.sigtermRaises = false)
    (hkill : env.sigkillRaises = false) :
    (kill p env).1.is_running = false ∧
    (kill p env).1.status = Status.offline := by
  unfold kill
  cases hp : p.process <;> cases ha : env.aliveAfterGrace <;>
    simp [hrun, hterm, hkill, _log_output, hp, ha, killFinish_state]

/-- On a running panel, kill always logs the diagnostic line announcing the
kill, in every branch of the kill path. -/
theorem kill_mem_killing (p : Panel) (env : KillEnv)
    (hrun : p.is_running = true) :
    "Killing process...\n" ∈ (kill p env).1.output_queue := by
  unfold kill
  cases hp : p.process <;> cases ht : env.sigtermRaises <;>
    cases ha : env.aliveAfterGrace <;> cases hk : env.sigkillRaises <;>
      simp [hrun, _log_output, hp, ht, ha, hk] <;>
        exact killFinish_mem _ _ _ _ (by simp)

/-- The kill-trace tail produced by the try-block tail: the incoming events
followed by the cleanup part. -/
theorem killFinish_trace (p : Panel) (env : KillEnv) (evs : List KillEvent) :
    (killFinish p env evs).2 = evs ++ cleanup_events p := by
  unfold killFinish cleanup_events _execute_cleanup_command _log_output
  cases p.custom_kill_cmd <;> cases env.cleanupResult <;> simp

/-- The cleanup part of the trace is unchanged by an output-log step. -/
theorem cleanup_events_log (p : Panel) (t : String) :
    cleanup_events (_log_output p t) = cleanup_events p := by
  unfold cleanup_events _log_output
  cases p.custom_kill_cmd <;> simp

/-- The cleanup part of the kill trace never contains a forceful delivery. -/
theorem sigkill_not_mem_cleanup_events (p : Panel) :
    KillEvent.sigkill ∉ cleanup_events p := by
  unfold cleanup_events
  cases p.custom_kill_cmd <;> simp

/-! ## Claim theorems -/

/-- Claim C1, amended. For every Panel with running true, kill terminates
with running false and status Offline whenever neither signal delivery
raises, regardless of which escalation branch fired and regardless of the
cleanup command failing, exiting non-zero or timing out; when a signal
delivery raises, the except branch only logs the error and leaves running
and status unchanged. -/
theorem c1_kill_reaches_offline (p : Panel) (env : KillEnv)
    (hrun : p.is_running = true) (hterm : env.sigtermRaises = false)
    (hkill : env.sigkillRaises = false) :
    (kill p env).1.is_running = false ∧
    (kill p env).1.status = Status.offline :=
  kill_offline_of_no_raise p env hrun hterm hkill

/-- Witness for Claim C1 at a concrete running panel and a concrete
environment in which the forced branch fires. -/
theorem c1_kill_reaches_offline_witness :
    (kill pRun envOk).1.is_running = false ∧
    (kill pRun envOk).1.status = Status.offline :=
  c1_kill_reaches_offline pRun envOk rfl rfl rfl

/-- Counterexample to Claim C1 as stated: on a concrete running panel whose
graceful signal delivery raises, kill returns with running still true and
status still Online, not Offline. -/
theorem c1_counterexample :
    pRun.is_running = true ∧
    (kill pRun envTermRaises).1.is_running = true ∧
    (kill pRun envTermRaises).1.status ≠ Status.offline := by
  decide

/-- Claim C3. For every Panel with running true, start spawns no process,
launches no reader thread, leaves the status and the process handle
unchanged, and only logs the already-running diagnostic. -/
theorem c3_start_noop_when_running (p : Panel) (env : StartEnv)
    (hrun : p.is_running = true) :
    (start p env).2 = [] ∧
    (start p env).1.status = p.status ∧
    (start p env).1.process = p.process ∧
    (start p env).1.is_running = true ∧
    (start p env).1.output_queue =
      p.output_queue ++ ["Process already running!\n"] := by
  unfold start
  simp [hrun, _log_output]

/-- Witness for Claim C3 at a concrete running panel. -/
theorem c3_start_noop_when_running_witness :
    (start pRun sEnvOk).2 = [] ∧
    (start pRun sEnvOk).1.status = pRun.status ∧
    (start pRun sEnvOk).1.process = pRun.process ∧
    (start pRun sEnvOk).1.is_running = true ∧
    (start pRun sEnvOk).1.output_queue =
      pRun.output_queue ++ ["Process already running!\n"] :=
  c3_start_noop_when_running pRun sEnvOk rfl

/-- Claim C4. On a running panel with a live process handle whose graceful
delivery does not raise, the kill trace starts with the graceful delivery
followed by the full one-second sleep, and the forceful delivery is present
exactly when the process is still alive after the grace period (and its own
delivery does not raise) — never earlier and never when the process already
exited. -/
theorem c4_kill_escalation (p : Panel) (env : KillEnv) (pid : Nat)
    (hrun : p.is_running = true) (hproc : p.process = some pid)
    (hterm : env.sigtermRaises = false) :
    (kill p env).2 =
      [KillEvent.sigterm, KillEvent.sleep 1] ++
        (if env.aliveAfterGrace = true then
          (if env.sigkillRaises = true then []
           else KillEvent.sigkill :: cleanup_events p)
         else cleanup_events p) ∧
    (KillEvent.sigkill ∈ (kill p env).2 ↔
      env.aliveAfterGrace = true ∧ env.sigkillRaises = false) := by
  unfold kill
  cases ha : env.aliveAfterGrace <;> cases hk : env.sigkillRaises <;>
    simp [hrun, hterm, ha, hk, log_output_process, hproc, killFinish_trace,
          cleanup_events_log, sigkill_not_mem_cleanup_events]

/-- Witness for Claim C4 at a concrete running panel in an environment where
the process survives the grace period, so the forced branch fires. -/
theorem c4_kill_escalation_witness :
    (kill pRun envOk).2 =
      [KillEvent.sigterm, KillEvent.sleep 1] ++
        (if envOk.aliveAfterGrace = true then
          (if envOk.sigkillRaises = true then []
           else KillEvent.sigkill :: cleanup_events pRun)
         else cleanup_events pRun) ∧
    (KillEvent.sigkill ∈ (kill pRun envOk).2 ↔
      envOk.aliveAfterGrace = true ∧ envOk.sigkillRaises = false) :=
  c4_kill_escalation pRun envOk 42 rfl rfl rfl

/-- Claim C5, amended. For every Panel with running false, kill delivers no
signal, logs the no-process diagnostic, and leaves running and status
unchanged — in particular a panel whose status is Offline stays Offline, but
a panel resting in the Error status keeps the Error status. -/
theorem c5_kill_noop_when_not_running (p : Panel) (env : KillEnv)
    (hrun : p.is_running = false) :
    (kill p env).2 = [] ∧
    (kill p env).1.status = p.status ∧
    (kill p env).1.is_running = false ∧
    (kill p env).1.output_queue =
      p.output_queue ++ ["No process running!\n"] := by
  unfold kill
  simp [hrun, _log_output]

/-- Witness for Claim C5 at a concrete idle panel, whose status Offline is
kept. -/
theorem c5_kill_noop_when_not_running_witness :
    (kill pIdle envOk).2 = [] ∧
    (kill pIdle envOk).1.status = pIdle.status ∧
    (kill pIdle envOk).1.is_running = false ∧
    (kill pIdle envOk).1.output_queue =
      pIdle.output_queue ++ ["No process running!\n"] :=
  c5_kill_noop_when_not_running pIdle envOk rfl

/-- Counterexample to Claim C5 as stated: a concrete non-running panel
resting in the Error status (as left behind by a failed spawn) keeps status
Error after kill, so kill does not leave status Offline. -/
theorem c5_counterexample :
    pErrIdle.is_running = false ∧
    (kill pErrIdle envOk).1.status = Status.error ∧
    (kill pErrIdle envOk).1.status ≠ Status.offline := by
  decide

/-- Claim C10 (implicit). When the monitoring loop of the reader thread
raises, the thread sets running to false but the status to Error rather than
Offline, so a panel with no live process can rest in the Error status and the
Offline-on-exit transition is not guaranteed on this path. -/
theorem c10_monitor_error_not_offline (p : Panel) (env : MonitorEnv)
    (hfail : env.readFails = true) :
    (_monitor_output p env).is_running = false ∧
    (_monitor_output p env).status = Status.error ∧
    (_monitor_output p env).status ≠ Status.offline := by
  unfold _monitor_output
  simp [hfail, _log_output, _update_status]

/-- Witness for Claim C10 at a concrete running panel whose stream read
raises. -/
theorem c10_monitor_error_not_offline_witness :
    (_monitor_output pRun mEnvFail).is_running = false ∧
    (_monitor_output pRun mEnvFail).status = Status.error ∧
    (_monitor_output pRun mEnvFail).status ≠ Status.offline :=
  c10_monitor_error_not_offline pRun mEnvFail rfl

/-- A failed spawn attempt on an idle panel leaves the error status and does
not set running. -/
theorem start_spawn_fail_error (p : Panel) (env : StartEnv)
    (hrun : p.is_running = false) (hf : env.spawnFails = true) :
    (start p env).1.status = Status.error ∧
    (start p env).1.is_running = false := by
  unfold start _start_remote _start_local
  cases hr : p.is_remote <;>
    simp [hrun, hf, hr, _log_output, _update_status]

/-- Claim C2. Emergency stop attempts kill on every currently running panel;
a panel whose own kill path fails (here: its graceful delivery raises) does
not prevent any other running panel from being killed and reaching the
offline, not-running state. -/
theorem c2_emergency_stop_isolation
    (l : List (Panel × KillEnv)) (k j : Nat) (pk pj : Panel × KillEnv)
    (hne : j ≠ k)
    (hkGet : l[k]? = some pk) (hjGet : l[j]? = some pj)
    (hkRun : pk.1.is_running = true) (hkFail : pk.2.sigtermRaises = true)
    (hjRun : pj.1.is_running = true)
    (hjTerm : pj.2.sigtermRaises = false)
    (hjKill : pj.2.sigkillRaises = false) :
    (_emergency_stop l)[j]? = some (kill pj.1 pj.2).1 ∧
    (kill pj.1 pj.2).1.is_running = false ∧
    (kill pj.1 pj.2).1.status = Status.offline ∧
    "Killing process...\n" ∈ (kill pj.1 pj.2).1.output_queue ∧
    ∀ (i : Nat) (pv : Panel × KillEnv), l[i]? = some pv →
      pv.1.is_running = true →
      (_emergency_stop l)[i]? = some (kill pv.1 pv.2).1 ∧
      "Killing process...\n" ∈ (kill pv.1 pv.2).1.output_queue := by
  have hmap : ∀ (i : Nat) (pv : Panel × KillEnv), l[i]? = some pv →
      pv.1.is_running = true →
      (_emergency_stop l)[i]? = some (kill pv.1 pv.2).1 := by
    intro i pv hget hrunv
    unfold _emergency_stop
    rw [List.getElem?_map, hget]
    simp [hrunv]
  refine ⟨hmap j pj hjGet hjRun,
    (kill_offline_of_no_raise pj.1 pj.2 hjRun hjTerm hjKill).1,
    (kill_offline_of_no_raise pj.1 pj.2 hjRun hjTerm hjKill).2,
    kill_mem_killing pj.1 pj.2 hjRun, ?_⟩
  intro i pv hget hrunv
  exact ⟨hmap i pv hget hrunv, kill_mem_killing pv.1 pv.2 hrunv⟩

/-- Witness for Claim C2 on a concrete two-panel collection where the first
panel is running and its graceful delivery raises, while the second running
panel still reaches the offline state. -/
theorem c2_emergency_stop_isolation_witness :
    (_emergency_stop [(pRun, envTermRaises), (pRemoteRun, envOk)])[1]? =
      some (kill pRemoteRun envOk).1 ∧
    (kill pRemoteRun envOk).1.is_running = false ∧
    (kill pRemoteRun envOk).1.status = Status.offline ∧
    "Killing process...\n" ∈ (kill pRemoteRun envOk).1.output_queue :=
  have h := c2_emergency_stop_isolation
    [(pRun, envTermRaises), (pRemoteRun, envOk)] 0 1
    (pRun, envTermRaises) (pRemoteRun, envOk)
    (by decide) rfl rfl rfl rfl rfl rfl rfl
  ⟨h.1, h.2.1, h.2.2.1, h.2.2.2.1⟩

/-- Claim C6. A wrapped remote invocation requests a pseudo-terminal (the -t
option, placed before the trailing remote command) exactly when the wrapped
command text contains the token sudo; and the cleanup command of a remote
panel is wrapped through the very same builder, independently of the primary
command. -/
theorem c6_pty_iff_sudo :
    (∀ c : String,
        ((_build_ssh_command c).dropLast).contains "-t" =
          strContains "sudo" c) ∧
    (∀ (p : Panel) (ck : String) (res : CleanupResult), p.is_remote = true →
        (_execute_cleanup_command p ck res).2 = _build_ssh_command ck) := by
  constructor
  · intro c
    unfold _build_ssh_command
    cases h : strContains "sudo" c <;> simp [h, List.dropLast]
  · intro p ck res hrem
    unfold _execute_cleanup_command
    cases res <;> simp [log_output_is_remote, hrem]

/-- Witness for Claim C6: a cleanup command containing sudo yields the
pseudo-terminal request, and on a concrete remote panel the cleanup
invocation equals the ssh wrapping of the cleanup text. -/
theorem c6_pty_iff_sudo_witness :
    ((_build_ssh_command "echo 1 | sudo -S bash kill_port.sh").dropLast).contains
        "-t" = strContains "sudo" "echo 1 | sudo -S bash kill_port.sh" ∧
    (_execute_cleanup_command pRemoteRun "pkill -f neck_teleop.py"
        CleanupResult.success).2 =
      _build_ssh_command "pkill -f neck_teleop.py" :=
  ⟨c6_pty_iff_sudo.1 "echo 1 | sudo -S bash kill_port.sh",
   c6_pty_iff_sudo.2 pRemoteRun "pkill -f neck_teleop.py"
     CleanupResult.success rfl⟩

/-- Claim C7. Group start visits its panels in the fixed order, starting each
panel not yet running and sleeping the inter-start delay before the next; a
spawn failure of an earlier panel (surfacing as the error status) does not
prevent the start attempt on each later panel, whose outcome equals a plain
start of its own. Stated for both group-start operations of the source. -/
theorem c7_group_start_isolated (sim2real teleop record neck zed : Panel)
    (e1 e2 e3 eN eZ : StartEnv)
    (h1 : sim2real.is_running = false) (hf : e1.spawnFails = true)
    (h2 : teleop.is_running = false) (h3 : record.is_running = false)
    (hN : neck.is_running = false) (hNf : eN.spawnFails = true)
    (hZ : zed.is_running = false) :
    (_start_local_servers sim2real teleop record e1 e2 e3).2 =
      [GEvent.startCalled sim2real.title, GEvent.slept 1,
       GEvent.startCalled teleop.title, GEvent.slept 1,
       GEvent.startCalled record.title] ∧
    (_start_local_servers sim2real teleop record e1 e2 e3).1.1.status =
      Status.error ∧
    (_start_local_servers sim2real teleop record e1 e2 e3).1.2.1 =
      (start teleop e2).1 ∧
    (_start_local_servers sim2real teleop record e1 e2 e3).1.2.2 =
      (start record e3).1 ∧
    (_start_g1_servers neck zed eN eZ).2 =
      [GEvent.startCalled neck.title, GEvent.slept 1,
       GEvent.startCalled zed.title] ∧
    (_start_g1_servers neck zed eN eZ).1.1.status = Status.error ∧
    (_start_g1_servers neck zed eN eZ).1.2 = (start zed eZ).1 := by
  unfold _start_local_servers _start_g1_servers
  simp [h1, h2, h3, hN, hZ,
        (start_spawn_fail_error sim2real e1 h1 hf).1,
        (start_spawn_fail_error neck eN hN hNf).1]

/-- Witness for Claim C7 on the concrete panel set of the source: the
sim2real and neck spawns fail, while the teleop, record and zed panels are
still attempted in order. -/
theorem c7_group_start_isolated_witness :
    (_start_local_servers pSimIdle pIdle pRecIdle sEnvFail sEnvOk sEnvOk).2 =
      [GEvent.startCalled pSimIdle.title, GEvent.slept 1,
       GEvent.startCalled pIdle.title, GEvent.slept 1,
       GEvent.startCalled pRecIdle.title] ∧
    (_start_local_servers pSimIdle pIdle pRecIdle sEnvFail sEnvOk
        sEnvOk).1.1.status = Status.error ∧
    (_start_local_servers pSimIdle pIdle pRecIdle sEnvFail sEnvOk
        sEnvOk).1.2.1 = (start pIdle sEnvOk).1 ∧
    (_start_local_servers pSimIdle pIdle pRecIdle sEnvFail sEnvOk
        sEnvOk).1.2.2 = (start pRecIdle sEnvOk).1 ∧
    (_start_g1_servers pNeckIdle pZedIdle sEnvFail sEnvOk).2 =
      [GEvent.startCalled pNeckIdle.title, GEvent.slept 1,
       GEvent.startCalled pZedIdle.title] ∧
    (_start_g1_servers pNeckIdle pZedIdle sEnvFail sEnvOk).1.1.status =
      Status.error ∧
    (_start_g1_servers pNeckIdle pZedIdle sEnvFail sEnvOk).1.2 =
      (start pZedIdle sEnvOk).1 :=
  c7_group_start_isolated pSimIdle pIdle pRecIdle pNeckIdle pZedIdle
    sEnvFail sEnvOk sEnvOk sEnvFail sEnvOk rfl rfl rfl rfl rfl rfl rfl

/-- Claim C8, amended. Every remote invocation built for a primary or cleanup
command carries host-key checking disabled and log verbosity reduced to
errors, but no connect-timeout option: none of its option arguments mentions
ConnectTimeout (that option appears only in the separate connectivity probe
and administrative helpers of the source, not in the panel builder). -/
theorem c8_ssh_fixed_options (c : String) :
    "StrictHostKeyChecking=no" ∈ _build_ssh_command c ∧
    "LogLevel=ERROR" ∈ _build_ssh_command c ∧
    ((_build_ssh_command c).dropLast).all
      (fun a => !(strContains "ConnectTimeout" a)) = true := by
  unfold _build_ssh_command
  cases h : strContains "sudo" c <;>
    refine ⟨by simp [h], by simp [h], ?_⟩ <;>
      simp [h, List.dropLast] <;> decide

/-- Counterexample to Claim C8 as stated: the invocation built for a concrete
panel command carries exactly the host-key and log-level options and the host
alias — no argument requests a connect timeout. -/
theorem c8_counterexample :
    _build_ssh_command "bash ~/g1-onboard/docker_neck.sh" =
      ["ssh", "-o", "StrictHostKeyChecking=no", "-o", "LogLevel=ERROR", "g1",
       "bash ~/g1-onboard/docker_neck.sh"] ∧
    (_build_ssh_command "bash ~/g1-onboard/docker_neck.sh").all
      (fun a => !(strContains "ConnectTimeout" a)) = true := by
  decide

/-- Claim C9. For every starting channel state and every interaction
sequence, the lines delivered to the consumer followed by the lines still
queued equal the previously delivered lines, then the previously queued
lines, then the pushed lines in push order: delivery is FIFO with no
reordering for any sequence of pushes. -/
theorem c9_fifo_order (s : ChanState) (ops : List ChanOp) :
    (chanRun s ops).delivered ++ (chanRun s ops).queue =
      s.delivered ++ s.queue ++ pushesOf ops := by
  induction ops generalizing s with
  | nil => simp [chanRun, pushesOf]
  | cons op rest ih =>
      have hstep : chanRun s (op :: rest) = chanRun (chanStep s op) rest := by
        simp [chanRun]
      rw [hstep, ih]
      cases op with
      | push x => simp [chanStep, queue_put, pushesOf]
      | pop =>
          cases hq : s.queue with
          | nil => simp [chanStep, hq, pushesOf]
          | cons x r2 => simp [chanStep, hq, pushesOf]
